import Mathlib

/-!
Shallow embedding of the Athena Genesis reward-distribution system:
the `RewardClaim` Solidity contract (reward_claim.sol), the sweep
automation script (auto_sweep.mjs v2.7) and the UI proof checker
(athena-ui/src/utils/claim.js), together with theorems settling the
specification claims about them.

Machine integers (uint256, bytes32, addresses, timestamps) are modelled
as `Nat`; Solidity 0.8 checked arithmetic is modelled by explicit
comparisons against `2 ^ 256` that revert on overflow/underflow.
`keccak256` is uninterpreted: the contract model is parameterised by a
pair-hash function and a leaf-hash function, so every theorem quantifies
over the hash model.  A reverting call is an `Except.error` carrying the
contract's own require message; a reverted transaction leaves the state
unchanged.
-/

namespace Athena

/-- Modulus of uint256 arithmetic. -/
def WORD : Nat := 2 ^ 256

/-- The contract constant `CLAIM_WINDOW = 48 hours`, in seconds. -/
def CLAIM_WINDOW : Nat := 172800

/-- Merkle library of reward_claim.sol.  `verify(proof, root, leaf)`
folds the proof over the leaf with sorted-pair hashing: at each step the
smaller (as a 256-bit number) of the running digest and the sibling is
hashed first.  `hash a b` stands for `keccak256(abi.encodePacked(a, b))`. -/
def Merkle.verify (hash : Nat → Nat → Nat) (proof : List Nat)
    (root : Nat) (leaf : Nat) : Bool :=
  (proof.foldl
    (fun computed p => if computed < p then hash computed p else hash p computed)
    leaf) == root

/-- The verifier as the specification words it: each step combines
`hash (min computed p) (max computed p)`. -/
def verifySortedPairSpec (hash : Nat → Nat → Nat) (proof : List Nat)
    (root : Nat) (leaf : Nat) : Bool :=
  (proof.foldl (fun computed p => hash (min computed p) (max computed p)) leaf) == root

/-- Per-epoch storage record of the contract (struct Epoch). -/
structure Epoch where
  root : Nat
  funded : Nat
  start : Nat
  claimsOpenAt : Nat
deriving Repr, DecidableEq

/-- Events emitted by the contract. -/
inductive Event where
  | AdminChanged (a : Nat)
  | Funded (epoch amount : Nat)
  | RootSet (epoch root : Nat)
  | Claimed (epoch user amount : Nat)
  | UnclaimedSwept (epoch amount : Nat)
deriving Repr, DecidableEq

/-- Contract storage plus the token balances the operations touch.
`balance` is the contract's own ATA balance, `treasuryBal` the treasury
address's balance; a minimal ERC-20 transfer succeeds exactly when the
sender's balance suffices. -/
structure State where
  admin : Nat
  epochs : Nat → Epoch
  claimed : Nat → Nat → Bool
  totalClaimed : Nat → Nat
  balance : Nat
  treasuryBal : Nat
  events : List Event

/-- Deployment parameters and the uninterpreted hash model.
`leafHash a amt e` stands for `keccak256(abi.encodePacked(a, amt, e))`. -/
structure Env where
  treasury : Nat
  hash : Nat → Nat → Nat
  leafHash : Nat → Nat → Nat → Nat

/-- Pointwise update of a mapping. -/
def upd {β : Type} (f : Nat → β) (k : Nat) (v : β) : Nat → β :=
  fun k' => if k' = k then v else f k'

/-- Pointwise update of a two-key mapping. -/
def upd2 {β : Type} (f : Nat → Nat → β) (k₁ k₂ : Nat) (v : β) : Nat → Nat → β :=
  fun k₁' k₂' => if k₁' = k₁ ∧ k₂' = k₂ then v else f k₁' k₂'

/-- External calls into the contract; time-dependent entry points carry
the block timestamp of the call. -/
inductive Op where
  | setAdmin (sender a : Nat)
  | fund (sender epoch amount : Nat)
  | setMerkleRoot (sender time epoch root : Nat)
  | claim (sender time epoch amount : Nat) (proof : List Nat)
  | sweepUnclaimed (sender time epoch : Nat)
deriving Repr

/-- One external call, following reward_claim.sol line by line: each
`require` becomes an `Except.error` with the contract's message, and the
checked additions/subtractions of Solidity 0.8 revert on overflow or
underflow.  A reverted call returns `Except.error`, leaving the caller to
discard the transaction. -/
def applyOp (env : Env) (s : State) : Op → Except String State
  | .setAdmin sender a =>
    if sender ≠ s.admin then .error ("not admin")
    else if a = 0 then .error ("zero")
    else .ok { s with admin := a, events := s.events ++ [.AdminChanged a] }
  | .fund sender epoch amount =>
    if sender ≠ env.treasury then .error ("only treasury")
    else if amount = 0 then .error ("amount")
    else if WORD ≤ (s.epochs epoch).funded + amount then .error ("overflow")
    else if s.treasuryBal < amount then .error ("transfer")
    else .ok { s with
      epochs := upd s.epochs epoch
        { s.epochs epoch with funded := (s.epochs epoch).funded + amount },
      treasuryBal := s.treasuryBal - amount,
      balance := s.balance + amount,
      events := s.events ++ [.Funded epoch amount] }
  | .setMerkleRoot sender time epoch root =>
    if sender ≠ s.admin then .error ("not admin")
    else if root = 0 then .error ("root")
    else .ok { s with
      epochs := upd s.epochs epoch
        { s.epochs epoch with
          root := root,
          claimsOpenAt := time,
          start := if (s.epochs epoch).start = 0 then time else (s.epochs epoch).start },
      events := s.events ++ [.RootSet epoch root] }
  | .claim sender time epoch amount proof =>
    if (s.epochs epoch).root = 0 then .error ("no root")
    else if WORD ≤ (s.epochs epoch).claimsOpenAt + CLAIM_WINDOW then .error ("overflow")
    else if (s.epochs epoch).claimsOpenAt + CLAIM_WINDOW < time then .error ("window closed")
    else if s.claimed epoch sender then .error ("claimed")
    else if Merkle.verify env.hash proof (s.epochs epoch).root
        (env.leafHash sender amount epoch) then
      if WORD ≤ s.totalClaimed epoch + amount then .error ("overflow")
      else if s.balance < amount then .error ("transfer")
      else .ok { s with
        claimed := upd2 s.claimed epoch sender true,
        totalClaimed := upd s.totalClaimed epoch (s.totalClaimed epoch + amount),
        balance := s.balance - amount,
        events := s.events ++ [.Claimed epoch sender amount] }
    else .error ("bad proof")
  | .sweepUnclaimed sender time epoch =>
    if sender ≠ s.admin then .error ("not admin")
    else if WORD ≤ (s.epochs epoch).claimsOpenAt + CLAIM_WINDOW then .error ("overflow")
    else if time ≤ (s.epochs epoch).claimsOpenAt + CLAIM_WINDOW then .error ("window open")
    else if (s.epochs epoch).funded < s.totalClaimed epoch then .error ("underflow")
    else if (s.epochs epoch).funded - s.totalClaimed epoch = 0 then .ok s
    else if s.balance < (s.epochs epoch).funded - s.totalClaimed epoch then .error ("sweep")
    else .ok { s with
      balance := s.balance - ((s.epochs epoch).funded - s.totalClaimed epoch),
      treasuryBal := s.treasuryBal + ((s.epochs epoch).funded - s.totalClaimed epoch),
      events := s.events ++
        [.UnclaimedSwept epoch ((s.epochs epoch).funded - s.totalClaimed epoch)] }

/-- Transaction semantics: a reverted call leaves the state unchanged. -/
def execOp (env : Env) (s : State) (o : Op) : State :=
  match applyOp env s o with
  | .ok t => t
  | .error _ => s

/-- Run a sequence of external calls. -/
def run (env : Env) (s : State) : List Op → State
  | [] => s
  | o :: rest => run env (execOp env s o) rest

/-- State right after the constructor: deployer is admin, no epoch
published, nothing claimed, the treasury holds `supply` tokens. -/
def init (deployer supply : Nat) : State :=
  { admin := deployer,
    epochs := fun _ => ⟨0, 0, 0, 0⟩,
    claimed := fun _ _ => false,
    totalClaimed := fun _ => 0,
    balance := 0,
    treasuryBal := supply,
    events := [.AdminChanged deployer] }

/-- Amount a call adds to `totalClaimed[E]` when it succeeds. -/
def claimDelta (o : Op) (E : Nat) : Nat :=
  match o with
  | .claim _ _ epoch amount _ => if epoch = E then amount else 0
  | _ => 0

/-- Sum of the amounts of the successful claims for epoch `E` along a
run started in state `s`. -/
def claimSum (env : Env) (s : State) : List Op → Nat → Nat
  | [], _ => 0
  | o :: rest, E =>
    (match applyOp env s o with
     | .ok _ => claimDelta o E
     | .error _ => 0) + claimSum env (execOp env s o) rest E

/-- Number of successful claims by address `A` for epoch `E` along a run
started in state `s`. -/
def claimCount (env : Env) (s : State) : List Op → Nat → Nat → Nat
  | [], _, _ => 0
  | o :: rest, E, A =>
    (match o, applyOp env s o with
     | .claim sender _ epoch _ _, .ok _ => if epoch = E ∧ sender = A then 1 else 0
     | _, _ => 0) + claimCount env (execOp env s o) rest E A

/-! Sweep automation script (auto_sweep.mjs v2.7).  The script reads, for
epoch ids 0, 1, 2, ..., the on-chain record `(root, funded, start,
claimsOpenAt)` and `totalClaimed`, and decides whether to invoke
`sweepUnclaimed`.  We model one run as a pure function of the fetched
per-epoch data: `Fetch.got r` is a successful pair of reads, `Fetch.err`
a read that throws (e.g. node unreachable).  `sweepOk = false` marks an
epoch whose sweep transaction would throw when submitted.

The script does its numeric tests on JavaScript numbers (IEEE-754
binary64): `unclaimed = Number(e.funded) / 1e18 -
Number(totalClaimed) / 1e18` and `closeTime = Number(e.claimsOpenAt) +
(48 + 1) * 3600`.  We model binary64 values as the subset of `ℚ` with a
53-bit significand and each operation as the exact rational operation
followed by rounding to nearest, ties to even (`rnd53`).  In the
script's value range this is exactly binary64: the inputs are uint256
reads (< 2^256, far below the 2^1024 overflow threshold) and the
quotients are either 0 or at least 10^-18 (far above the 2^-1022
subnormal threshold), so exponent clamping never kicks in.  In
particular `Number` on a bigint beyond 2^53 loses wei-level precision:
a dust remainder such as `funded = 10^19 + 1, totalClaimed = 10^19`
collapses to `unclaimed = 0` and is skipped, which this model
reproduces. -/

/-- Fuel-driven floor of log2 on naturals (`nlog2 n n` is `Nat.log2 n`,
written with structural fuel so the kernel can evaluate it). -/
def nlog2 (fuel n : Nat) : Nat :=
  match fuel with
  | 0 => 0
  | fuel + 1 => if 2 ≤ n then nlog2 fuel (n / 2) + 1 else 0

/-- Floor of log2 of a positive rational (junk on nonpositive input).
For `q ≥ 1` this is log2 of the integer part; for `q < 1` it is derived
from log2 of the integer part of the reciprocal, adjusted when the
reciprocal is an exact power of two. -/
def floorLog2 (q : ℚ) : Int :=
  let a := q.num.toNat
  let b := q.den
  if b ≤ a then (nlog2 (a / b) (a / b) : Int)
  else
    let L := nlog2 (b / a) (b / a)
    if b = a * 2 ^ L then -(L : Int) else -(L : Int) - 1

/-- Integer power of two as a rational, for signed exponents. -/
def pow2 (k : Int) : ℚ :=
  if 0 ≤ k then ((2 ^ k.toNat : Nat) : ℚ) else 1 / ((2 ^ (-k).toNat : Nat) : ℚ)

/-- Round a rational to the nearest integer, ties to even. -/
def roundHalfEven (r : ℚ) : Int :=
  let f := ⌊r⌋
  let frac := r - (f : ℚ)
  if frac < 1 / 2 then f
  else if 1 / 2 < frac then f + 1
  else if f % 2 = 0 then f else f + 1

/-- Round a positive rational to 53 significant bits: scale into
`[2^52, 2^53)`, round to the nearest integer (ties to even), scale
back. -/
def rnd53Pos (q : ℚ) : ℚ :=
  let e : Int := floorLog2 q
  ((roundHalfEven (q * pow2 (52 - e)) : ℚ)) * pow2 (e - 52)

/-- Binary64 round-to-nearest-even of a rational (exponent unbounded,
which coincides with binary64 away from overflow and subnormals — the
only range the script's values occupy). -/
def rnd53 (q : ℚ) : ℚ :=
  if q = 0 then 0 else if q < 0 then - rnd53Pos (-q) else rnd53Pos q

/-- JavaScript `Number(bigint)`: the nearest binary64 value. -/
def toDouble (n : Nat) : ℚ := rnd53 (n : ℚ)

/-- Binary64 division (correctly rounded). -/
def divD (a b : ℚ) : ℚ := rnd53 (a / b)

/-- Binary64 subtraction (correctly rounded). -/
def subD (a b : ℚ) : ℚ := rnd53 (a - b)

/-- Binary64 addition (correctly rounded). -/
def addD (a b : ℚ) : ℚ := rnd53 (a + b)

/-- Data the script obtains for one epoch id. -/
structure EpochRec where
  claimsOpenAt : Nat
  funded : Nat
  totalClaimed : Nat
  sweepOk : Bool
deriving Repr, DecidableEq

/-- One fetched loop iteration: the reads succeeded, or threw. -/
inductive Fetch where
  | got (r : EpochRec)
  | err
deriving Repr, DecidableEq

/-- Outcome of a script run: counters reported in the final summary, how
many epochs were examined past the stop test, whether the run hit the
catch handler, and the process exit status. -/
structure SweepResult where
  swept : Nat
  skipped : Nat
  processed : Nat
  errored : Bool
  exitCode : Nat
deriving Repr, DecidableEq

/-- Window-close test of the script: `now > Number(claimsOpenAt) +
(48 + 1) * 3600` (48h window plus the one-hour safety margin), computed
on doubles; `now = Math.floor(Date.now() / 1000)` is an exact double. -/
def scriptExpired (now : Nat) (r : EpochRec) : Bool :=
  addD (toDouble r.claimsOpenAt) (((48 + 1) * 3600 : Nat) : ℚ) < (now : ℚ)

/-- The script's `unclaimed` value for one epoch:
`Number(funded) / 1e18 - Number(totalClaimed) / 1e18` on doubles. -/
def scriptUnclaimed (r : EpochRec) : ℚ :=
  subD (divD (toDouble r.funded) ((10 : ℚ) ^ 18))
    (divD (toDouble r.totalClaimed) ((10 : ℚ) ^ 18))

/-- Main loop of auto_sweep.mjs v2.7, iterating epoch ids upward over the
fetched data.  A fetch error or a throwing sweep transaction is caught and
answered with `break`; an epoch with `claimsOpenAt == 0` ends the loop; a
not-yet-expired epoch counts as skipped; an expired epoch with nothing
unclaimed is passed over without counting; otherwise the sweep is
submitted and counted.  Whatever ends the loop, control falls through to
the summary and `process.exit(0)`, so the exit code is 0 on every path. -/
def sweepLoop (now : Nat) : List Fetch → SweepResult
  | [] => ⟨0, 0, 0, false, 0⟩
  | .err :: _ => ⟨0, 0, 0, true, 0⟩
  | .got r :: rest =>
    if r.claimsOpenAt = 0 then ⟨0, 0, 0, false, 0⟩
    else if ¬ scriptExpired now r then
      let res := sweepLoop now rest
      { res with skipped := res.skipped + 1, processed := res.processed + 1 }
    else if scriptUnclaimed r ≤ 0 then
      let res := sweepLoop now rest
      { res with processed := res.processed + 1 }
    else if r.sweepOk then
      let res := sweepLoop now rest
      { res with swept := res.swept + 1, processed := res.processed + 1 }
    else ⟨0, 0, 1, true, 0⟩

/-- Number of epochs of a record list the script would sweep: expired
window and a positive `unclaimed` double. -/
def countSwept (now : Nat) (rs : List EpochRec) : Nat :=
  rs.countP (fun r => scriptExpired now r && decide (0 < scriptUnclaimed r))

/-- Number of epochs of a record list the script would count as skipped:
claim window not yet expired. -/
def countSkipped (now : Nat) (rs : List EpochRec) : Nat :=
  rs.countP (fun r => ! scriptExpired now r)

/-! UI local proof checker (athena-ui/src/utils/claim.js).  The JS
function takes hex-digest strings.  Its guard returns false when leaf,
proof or root is falsy (for string inputs: the empty string).  The loop
body calls `keccak256`, an identifier that is bound nowhere in the
module, so the first iteration throws a ReferenceError that the catch
swallows into `return false`; hence any non-empty proof yields false,
and only the empty proof reaches the final case-insensitive comparison
of the running digest with the root. -/

/-- Shallow embedding of `verifyProofLocally(leaf, proof, root)`. -/
def verifyProofLocally (leaf : String) (proof : List String) (root : String) : Bool :=
  if leaf = "" ∨ root = "" then false
  else
    match proof with
    | [] => leaf.toLower == root.toLower
    | _ :: _ => false

/-- Lowercase 0x-prefixed 64-digit hex rendering of a 256-bit digest,
the JSON wire format the UI receives digests in. -/
def hex32 (n : Nat) : String :=
  "0x" ++ String.mk (List.replicate (64 - (Nat.toDigits 16 n).length) '0'
    ++ Nat.toDigits 16 n)

/-! Helper lemmas about single contract calls. -/

lemma sortedPair_eq (hash : Nat → Nat → Nat) :
    (fun computed p => if computed < p then hash computed p else hash p computed)
      = fun computed p => hash (min computed p) (max computed p) := by
  funext c p
  rcases lt_trichotomy c p with h | h | h
  · rw [if_pos h, Nat.min_eq_left (Nat.le_of_lt h), Nat.max_eq_right (Nat.le_of_lt h)]
  · subst h
    rw [if_neg (lt_irrefl c), Nat.min_self, Nat.max_self]
  · rw [if_neg (Nat.not_lt.mpr (Nat.le_of_lt h)),
      Nat.min_eq_right (Nat.le_of_lt h), Nat.max_eq_left (Nat.le_of_lt h)]

lemma execOp_of_not_ok {env : Env} {s : State} {o : Op}
    (h : (applyOp env s o).isOk = false) : execOp env s o = s := by
  unfold execOp
  cases hap : applyOp env s o with
  | ok t => rw [hap] at h; simp [Except.isOk, Except.toBool] at h
  | error m => rfl

lemma claim_fails_if_claimed {env : Env} {s : State} {E A t amt : Nat}
    {proof : List Nat} (hflag : s.claimed E A = true) :
    (applyOp env s (.claim A t E amt proof)).isOk = false := by
  simp only [applyOp, hflag]
  split
  · rfl
  split
  · rfl
  split
  · rfl
  rfl

lemma claim_sets_flag {env : Env} {s : State} {E A t amt : Nat}
    {proof : List Nat} {u : State}
    (h : applyOp env s (.claim A t E amt proof) = Except.ok u) :
    u.claimed E A = true := by
  simp only [applyOp] at h
  repeat' split at h
  all_goals try exact Except.noConfusion h
  cases h
  simp [upd2]

lemma claimed_preserved {env : Env} {s : State} {o : Op} {u : State}
    (h : applyOp env s o = Except.ok u) {E A : Nat}
    (hflag : s.claimed E A = true) : u.claimed E A = true := by
  cases o <;> simp only [applyOp] at h <;> repeat' split at h
  all_goals try exact Except.noConfusion h
  all_goals cases h
  all_goals try exact hflag
  simp only [upd2]
  split
  · rfl
  · exact hflag

lemma claimed_mono (env : Env) (s : State) (o : Op) {E A : Nat}
    (hflag : s.claimed E A = true) : (execOp env s o).claimed E A = true := by
  unfold execOp
  cases hap : applyOp env s o with
  | ok u => exact claimed_preserved hap hflag
  | error m => exact hflag

lemma totalClaimed_of_ok {env : Env} {s : State} {o : Op} {u : State}
    (h : applyOp env s o = Except.ok u) (E : Nat) :
    u.totalClaimed E = s.totalClaimed E + claimDelta o E := by
  cases o <;> simp only [applyOp] at h <;> repeat' split at h
  all_goals try exact Except.noConfusion h
  all_goals cases h
  all_goals try simp [claimDelta]
  rename_i sender time epoch amount proof _ _ _ _ _ _ _
  simp only [claimDelta, upd]
  by_cases hE : E = epoch
  · subst hE
    simp
  · rw [if_neg hE, if_neg (fun hc => hE hc.symm), Nat.add_zero]

lemma claim_no_root {env : Env} {s : State} {E A t amt : Nat} {proof : List Nat}
    (hroot : (s.epochs E).root = 0) :
    applyOp env s (.claim A t E amt proof) = .error ("no root") := by
  simp only [applyOp]
  rw [if_pos hroot]

lemma claim_window_closed {env : Env} {s : State} {E A t amt : Nat} {proof : List Nat}
    (hroot : (s.epochs E).root ≠ 0)
    (hov : (s.epochs E).claimsOpenAt + CLAIM_WINDOW < WORD)
    (ht : (s.epochs E).claimsOpenAt + CLAIM_WINDOW < t) :
    applyOp env s (.claim A t E amt proof) = .error ("window closed") := by
  simp only [applyOp]
  rw [if_neg hroot, if_neg (Nat.not_le.mpr hov), if_pos ht]

lemma claim_already {env : Env} {s : State} {E A t amt : Nat} {proof : List Nat}
    (hroot : (s.epochs E).root ≠ 0)
    (hov : (s.epochs E).claimsOpenAt + CLAIM_WINDOW < WORD)
    (ht : t ≤ (s.epochs E).claimsOpenAt + CLAIM_WINDOW)
    (hflag : s.claimed E A = true) :
    applyOp env s (.claim A t E amt proof) = .error ("claimed") := by
  simp only [applyOp]
  rw [if_neg hroot, if_neg (Nat.not_le.mpr hov), if_neg (Nat.not_lt.mpr ht), if_pos hflag]

lemma claim_ok {env : Env} {s : State} {E A t amt : Nat} {proof : List Nat}
    (hroot : (s.epochs E).root ≠ 0)
    (hov : (s.epochs E).claimsOpenAt + CLAIM_WINDOW < WORD)
    (ht : t ≤ (s.epochs E).claimsOpenAt + CLAIM_WINDOW)
    (hcl : s.claimed E A = false)
    (hpf : Merkle.verify env.hash proof (s.epochs E).root (env.leafHash A amt E) = true)
    (hov2 : s.totalClaimed E + amt < WORD)
    (hbal : amt ≤ s.balance) :
    applyOp env s (.claim A t E amt proof) = .ok
      { s with claimed := upd2 s.claimed E A true,
               totalClaimed := upd s.totalClaimed E (s.totalClaimed E + amt),
               balance := s.balance - amt,
               events := s.events ++ [.Claimed E A amt] } := by
  simp only [applyOp]
  rw [if_neg hroot, if_neg (Nat.not_le.mpr hov), if_neg (Nat.not_lt.mpr ht),
    if_neg (by simp [hcl]), if_pos hpf, if_neg (Nat.not_le.mpr hov2),
    if_neg (Nat.not_lt.mpr hbal)]

lemma sweep_reverts_window {env : Env} {s : State} {sender t E : Nat}
    (h : t ≤ (s.epochs E).claimsOpenAt + CLAIM_WINDOW) :
    (applyOp env s (.sweepUnclaimed sender t E)).isOk = false := by
  simp only [applyOp, h]
  split
  · rfl
  split
  · rfl
  rfl

lemma sweep_ok_zero {env : Env} {s : State} {sender t E : Nat}
    (hs : sender = s.admin)
    (hov : (s.epochs E).claimsOpenAt + CLAIM_WINDOW < WORD)
    (ht : (s.epochs E).claimsOpenAt + CLAIM_WINDOW < t)
    (hz : (s.epochs E).funded = s.totalClaimed E) :
    applyOp env s (.sweepUnclaimed sender t E) = .ok s := by
  simp only [applyOp]
  rw [if_neg (by simp [hs]), if_neg (Nat.not_le.mpr hov), if_neg (Nat.not_le.mpr ht),
    if_neg (by omega), if_pos (by omega)]

lemma sweep_ok_transfer {env : Env} {s : State} {sender t E : Nat}
    (hs : sender = s.admin)
    (hov : (s.epochs E).claimsOpenAt + CLAIM_WINDOW < WORD)
    (ht : (s.epochs E).claimsOpenAt + CLAIM_WINDOW < t)
    (hpos : s.totalClaimed E < (s.epochs E).funded)
    (hbal : (s.epochs E).funded - s.totalClaimed E ≤ s.balance) :
    applyOp env s (.sweepUnclaimed sender t E) = .ok
      { s with balance := s.balance - ((s.epochs E).funded - s.totalClaimed E),
               treasuryBal := s.treasuryBal + ((s.epochs E).funded - s.totalClaimed E),
               events := s.events ++
                 [.UnclaimedSwept E ((s.epochs E).funded - s.totalClaimed E)] } := by
  simp only [applyOp]
  rw [if_neg (by simp [hs]), if_neg (Nat.not_le.mpr hov), if_neg (Nat.not_le.mpr ht),
    if_neg (by omega), if_neg (by omega), if_neg (Nat.not_lt.mpr hbal)]

lemma setMerkleRoot_ok {env : Env} {s : State} {sender t E r : Nat}
    (hs : sender = s.admin) (hr : r ≠ 0) :
    applyOp env s (.setMerkleRoot sender t E r) = .ok { s with
      epochs := upd s.epochs E
        { s.epochs E with
          root := r,
          claimsOpenAt := t,
          start := if (s.epochs E).start = 0 then t else (s.epochs E).start },
      events := s.events ++ [.RootSet E r] } := by
  simp only [applyOp]
  rw [if_neg (by simp [hs]), if_neg hr]

/-! Trace-level lemmas. -/

lemma run_totalClaimed (env : Env) : ∀ (ops : List Op) (s : State) (E : Nat),
    (run env s ops).totalClaimed E = s.totalClaimed E + claimSum env s ops E := by
  intro ops
  induction ops with
  | nil => intro s E; simp [run, claimSum]
  | cons o rest ih =>
    intro s E
    simp only [run, claimSum]
    rw [ih]
    cases hap : applyOp env s o with
    | error m => simp [execOp, hap]
    | ok u => simp [execOp, hap, totalClaimed_of_ok hap E, Nat.add_assoc]

lemma claimCount_eq_zero (env : Env) : ∀ (ops : List Op) (s : State) (E A : Nat),
    s.claimed E A = true → claimCount env s ops E A = 0 := by
  intro ops
  induction ops with
  | nil => intro s E A _; rfl
  | cons o rest ih =>
    intro s E A h
    simp only [claimCount]
    rw [ih (execOp env s o) E A (claimed_mono env s o h), Nat.add_zero]
    split
    next sender tm ep amt proof u heq =>
      by_cases hc : ep = E ∧ sender = A
      · obtain ⟨he, hs'⟩ := hc
        subst he; subst hs'
        have hfail := @claim_fails_if_claimed env s ep sender tm amt proof h
        rw [heq] at hfail
        exact absurd hfail (by simp [Except.isOk, Except.toBool])
      · exact if_neg hc
    next => rfl

lemma claimCount_le_one (env : Env) : ∀ (ops : List Op) (s : State) (E A : Nat),
    claimCount env s ops E A ≤ 1 := by
  intro ops
  induction ops with
  | nil => intro s E A; simp [claimCount]
  | cons o rest ih =>
    intro s E A
    simp only [claimCount]
    split
    next sender tm ep amt proof u heq =>
      by_cases hc : ep = E ∧ sender = A
      · obtain ⟨he, hs'⟩ := hc
        rw [if_pos ⟨he, hs'⟩]
        have hu : u.claimed E A = true := by
          rw [← he, ← hs']
          exact claim_sets_flag heq
        have hrest : claimCount env (execOp env s (Op.claim sender tm ep amt proof)) rest E A = 0 := by
          rw [show execOp env s (Op.claim sender tm ep amt proof) = u from by simp [execOp, heq]]
          exact claimCount_eq_zero env rest u E A hu
        omega
      · rw [if_neg hc, Nat.zero_add]
        exact ih _ _ _
    next => simpa using ih _ _ _

lemma sweepLoop_stops (now : Nat) : ∀ (pre : List EpochRec) (z : EpochRec) (post : List Fetch),
    (∀ r ∈ pre, r.claimsOpenAt ≠ 0) → (∀ r ∈ pre, r.sweepOk = true) →
    z.claimsOpenAt = 0 →
    sweepLoop now (pre.map Fetch.got ++ Fetch.got z :: post)
      = ⟨countSwept now pre, countSkipped now pre, pre.length, false, 0⟩ := by
  intro pre
  induction pre with
  | nil =>
    intro z post _ _ hz
    simp [sweepLoop, hz, countSwept, countSkipped]
  | cons r pre ih =>
    intro z post h1 h2 hz
    have hr1 : r.claimsOpenAt ≠ 0 := h1 r (by simp)
    have hr2 : r.sweepOk = true := h2 r (by simp)
    have ih' := ih z post (fun x hx => h1 x (by simp [hx])) (fun x hx => h2 x (by simp [hx])) hz
    simp only [List.map_cons, List.cons_append, sweepLoop, List.append_eq]
    rw [if_neg hr1]
    by_cases hexp : scriptExpired now r = true
    · rw [if_neg (by simp [hexp])]
      by_cases hle : scriptUnclaimed r ≤ 0
      · rw [if_pos hle, ih']
        simp [countSwept, countSkipped, List.countP_cons, hexp, not_lt.mpr hle]
      · rw [if_neg hle, if_pos hr2, ih']
        simp [countSwept, countSkipped, List.countP_cons, hexp, not_le.mp hle]
    · rw [if_pos (by simp [hexp]), ih']
      simp [countSwept, countSkipped, List.countP_cons, hexp]

/-! Concrete fixtures used by counterexamples and witnesses.  `env0` is a
hash-model instantiation: the pair hash is constant 0 and every leaf
hashes to the digest 1, mirroring an admin that publishes the leaf digest
itself as the root (an empty proof then verifies).  Address 1 deploys the
contract (becoming admin), address 2 is the treasury with an initial
balance of 101 tokens, address 3 is a claimant. -/

def env0 : Env := ⟨2, fun _ _ => 0, fun _ _ _ => 1⟩

/-- Trace for the C1 counterexample: epoch 0 is funded with 1 token and
epoch 1 with 100; the admin publishes the digest of address 3's leaf as
epoch 0's root, and address 3 claims 50 tokens against epoch 0, paid out
of the pooled contract balance. -/
def ops1 : List Op := [.fund 2 0 1, .fund 2 1 100, .setMerkleRoot 1 5 0 1, .claim 3 5 0 50 []]

/-- Reachable state with a funded but never published epoch 0. -/
def s2 : State := run env0 (init 1 101) [.fund 2 0 5]

/-- Reachable state with epoch 0 funded with 10 tokens and a root
published at time 100. -/
def s3 : State := run env0 (init 1 101) [.fund 2 0 10, .setMerkleRoot 1 100 0 1]

/-- Reachable state extending `s3` by a successful claim of 7 tokens by
address 3 at time 150. -/
def s4 : State := run env0 (init 1 101) [.fund 2 0 10, .setMerkleRoot 1 100 0 1,
  .claim 3 150 0 7 []]

/-- Claim C1, first half, refuted: it is not the case that
`totalClaimed[E] <= funded[E]` holds in every state reachable from the
constructor by fund, setMerkleRoot, claim and sweepUnclaimed calls.  In
the concrete trace `ops1` the admin publishes a root committing a 50-token
leaf for an epoch funded with only 1 token, and the claim is paid from
the pooled contract balance: afterwards `totalClaimed[0] = 50 > 1 =
funded[0]`. -/
theorem C1_totalClaimed_le_funded_counterexample :
    ¬ (∀ (env : Env) (deployer supply : Nat) (ops : List Op) (E : Nat),
        (run env (init deployer supply) ops).totalClaimed E
          ≤ ((run env (init deployer supply) ops).epochs E).funded) := by
  intro h
  exact absurd (h env0 1 101 ops1 0) (by decide)

/-- Claim C1, as amended: in every state reachable from the constructor,
`totalClaimed[E]` equals the exact sum of the amounts of the successful
claims recorded for epoch `E` along the trace; the bound
`totalClaimed[E] <= funded[E]` does not hold in general. -/
theorem C1_totalClaimed_eq_claim_sum (env : Env) (deployer supply : Nat)
    (ops : List Op) (E : Nat) :
    (run env (init deployer supply) ops).totalClaimed E
      = claimSum env (init deployer supply) ops E := by
  simpa [init] using run_totalClaimed env ops (init deployer supply) E

/-- Claim C2: along any trace from the constructor at most one claim by
address `A` for epoch `E` succeeds; a set claimed flag survives every
operation; any later claim attempt by `A` for `E` fails, changes no
state, and — whenever the epoch has a root and its window is open, so
that the attempt reaches the claimed-flag check — reverts with the
AlreadyClaimed message. -/
theorem C2_at_most_one_claim (env : Env) (deployer supply : Nat) (ops : List Op)
    (E A : Nat) (s : State) (t amt : Nat) (proof : List Nat)
    (hflag : s.claimed E A = true) :
    claimCount env (init deployer supply) ops E A ≤ 1 ∧
    (∀ o : Op, (execOp env s o).claimed E A = true) ∧
    (applyOp env s (.claim A t E amt proof)).isOk = false ∧
    execOp env s (.claim A t E amt proof) = s ∧
    ((s.epochs E).root ≠ 0 → (s.epochs E).claimsOpenAt + CLAIM_WINDOW < WORD →
      t ≤ (s.epochs E).claimsOpenAt + CLAIM_WINDOW →
      applyOp env s (.claim A t E amt proof) = .error ("claimed")) :=
  ⟨claimCount_le_one env ops _ E A,
   fun o => claimed_mono env s o hflag,
   claim_fails_if_claimed hflag,
   execOp_of_not_ok (claim_fails_if_claimed hflag),
   fun hroot hov ht => claim_already hroot hov ht hflag⟩

theorem C2_at_most_one_claim_witness :
    s4.claimed 0 3 = true ∧
    (claimCount env0 (init 1 101) ops1 0 3 ≤ 1 ∧
     (∀ o : Op, (execOp env0 s4 o).claimed 0 3 = true) ∧
     (applyOp env0 s4 (.claim 3 200 0 7 [])).isOk = false ∧
     execOp env0 s4 (.claim 3 200 0 7 []) = s4 ∧
     ((s4.epochs 0).root ≠ 0 → (s4.epochs 0).claimsOpenAt + CLAIM_WINDOW < WORD →
       200 ≤ (s4.epochs 0).claimsOpenAt + CLAIM_WINDOW →
       applyOp env0 s4 (.claim 3 200 0 7 []) = .error ("claimed"))) :=
  ⟨by decide, C2_at_most_one_claim env0 1 101 ops1 0 3 s4 200 7 [] (by decide)⟩

/-- Claim C3, refuted on its sweep half: `s2` is reachable (epoch 0 was
funded with 5 tokens and never published, so its root is the zero
digest), yet a sweepUnclaimed call at time `CLAIM_WINDOW + 1` moves the
5 tokens out of the contract — sweepUnclaimed never checks the root, and
an unpublished epoch has `claimsOpenAt = 0`, so its "window" is closed
once the clock passes 48 hours. -/
theorem C3_unpublished_sweep_counterexample :
    (s2.epochs 0).root = 0 ∧
    (execOp env0 s2 (.sweepUnclaimed 1 (CLAIM_WINDOW + 1) 0)).balance ≠ s2.balance := by
  constructor
  · decide
  · decide

/-- Claim C3, as amended: against an unpublished epoch (zero root, zero
claimsOpenAt) every claim call fails with the NoRootPublished message,
and a sweep moves no funds only while the current time is at most
`CLAIM_WINDOW`; past that, an admin sweep of a funded unpublished epoch
succeeds and transfers `funded[E] - totalClaimed[E]` to the treasury. -/
theorem C3_unpublished_epoch (env : Env) (s : State) (E : Nat)
    (hroot : (s.epochs E).root = 0) (hopen : (s.epochs E).claimsOpenAt = 0) :
    (∀ A t amt proof, applyOp env s (.claim A t E amt proof) = .error ("no root")) ∧
    (∀ sender t, t ≤ CLAIM_WINDOW →
      (applyOp env s (.sweepUnclaimed sender t E)).isOk = false ∧
      execOp env s (.sweepUnclaimed sender t E) = s) ∧
    (∀ sender t, sender = s.admin → CLAIM_WINDOW < t →
      s.totalClaimed E < (s.epochs E).funded →
      (s.epochs E).funded - s.totalClaimed E ≤ s.balance →
      (execOp env s (.sweepUnclaimed sender t E)).balance
          = s.balance - ((s.epochs E).funded - s.totalClaimed E) ∧
      (execOp env s (.sweepUnclaimed sender t E)).treasuryBal
          = s.treasuryBal + ((s.epochs E).funded - s.totalClaimed E)) := by
  refine ⟨fun A t amt proof => claim_no_root hroot, fun sender t ht => ?_, ?_⟩
  · have h1 : t ≤ (s.epochs E).claimsOpenAt + CLAIM_WINDOW := by
      rw [hopen]; simpa using ht
    exact ⟨sweep_reverts_window h1, execOp_of_not_ok (sweep_reverts_window h1)⟩
  · intro sender t hs ht hpos hbal
    have hov : (s.epochs E).claimsOpenAt + CLAIM_WINDOW < WORD := by
      rw [hopen]; decide
    have ht' : (s.epochs E).claimsOpenAt + CLAIM_WINDOW < t := by
      rw [hopen]; simpa using ht
    have h := @sweep_ok_transfer env s sender t E hs hov ht' hpos hbal
    constructor <;> simp [execOp, h]

theorem C3_unpublished_epoch_witness :
    ((s2.epochs 0).root = 0 ∧ (s2.epochs 0).claimsOpenAt = 0) ∧
    ((∀ A t amt proof, applyOp env0 s2 (.claim A t 0 amt proof) = .error ("no root")) ∧
     (∀ sender t, t ≤ CLAIM_WINDOW →
       (applyOp env0 s2 (.sweepUnclaimed sender t 0)).isOk = false ∧
       execOp env0 s2 (.sweepUnclaimed sender t 0) = s2) ∧
     (∀ sender t, sender = s2.admin → CLAIM_WINDOW < t →
       s2.totalClaimed 0 < (s2.epochs 0).funded →
       (s2.epochs 0).funded - s2.totalClaimed 0 ≤ s2.balance →
       (execOp env0 s2 (.sweepUnclaimed sender t 0)).balance
           = s2.balance - ((s2.epochs 0).funded - s2.totalClaimed 0) ∧
       (execOp env0 s2 (.sweepUnclaimed sender t 0)).treasuryBal
           = s2.treasuryBal + ((s2.epochs 0).funded - s2.totalClaimed 0))) :=
  ⟨⟨by decide, by decide⟩, C3_unpublished_epoch env0 s2 0 (by decide) (by decide)⟩

/-- Claim C4: the on-chain verifier equals the fold the specification
describes — starting from the leaf, each step hashes the smaller of the
running digest and the sibling before the larger — and on the empty
proof it returns true exactly when the leaf equals the root.  Being a
total Bool-valued function, its only failure mode is returning false. -/
theorem C4_merkle_verify_is_sorted_fold (hash : Nat → Nat → Nat)
    (proof : List Nat) (root leaf : Nat) :
    Merkle.verify hash proof root leaf = verifySortedPairSpec hash proof root leaf ∧
    (Merkle.verify hash [] root leaf = true ↔ leaf = root) := by
  constructor
  · unfold Merkle.verify verifySortedPairSpec
    rw [sortedPair_eq]
  · simp [Merkle.verify]

/-- Claim C5: with every other precondition satisfied, a claim submitted
at exactly `claimsOpenAt[E] + CLAIM_WINDOW` succeeds, and one submitted
one second later reverts with the ClaimWindowClosed message. -/
theorem C5_claim_window_boundary (env : Env) (s : State) (E A amt : Nat)
    (proof : List Nat)
    (hroot : (s.epochs E).root ≠ 0)
    (hov : (s.epochs E).claimsOpenAt + CLAIM_WINDOW < WORD)
    (hcl : s.claimed E A = false)
    (hpf : Merkle.verify env.hash proof (s.epochs E).root (env.leafHash A amt E) = true)
    (hov2 : s.totalClaimed E + amt < WORD)
    (hbal : amt ≤ s.balance) :
    (applyOp env s (.claim A ((s.epochs E).claimsOpenAt + CLAIM_WINDOW) E amt proof)).isOk
        = true ∧
    applyOp env s (.claim A ((s.epochs E).claimsOpenAt + CLAIM_WINDOW + 1) E amt proof)
        = .error ("window closed") := by
  constructor
  · rw [claim_ok hroot hov (Nat.le_refl _) hcl hpf hov2 hbal]
    rfl
  · exact claim_window_closed hroot hov (Nat.lt_succ_self _)

theorem C5_claim_window_boundary_witness :
    ((s3.epochs 0).root ≠ 0 ∧
     (s3.epochs 0).claimsOpenAt + CLAIM_WINDOW < WORD ∧
     s3.claimed 0 3 = false ∧
     Merkle.verify env0.hash [] (s3.epochs 0).root (env0.leafHash 3 7 0) = true ∧
     s3.totalClaimed 0 + 7 < WORD ∧
     7 ≤ s3.balance) ∧
    ((applyOp env0 s3 (.claim 3 ((s3.epochs 0).claimsOpenAt + CLAIM_WINDOW) 0 7 [])).isOk
        = true ∧
     applyOp env0 s3 (.claim 3 ((s3.epochs 0).claimsOpenAt + CLAIM_WINDOW + 1) 0 7 [])
        = .error ("window closed")) :=
  ⟨⟨by decide, by decide, by decide, by decide, by decide, by decide⟩,
   C5_claim_window_boundary env0 s3 0 3 7 [] (by decide) (by decide) (by decide)
     (by decide) (by decide) (by decide)⟩

/-- Claim C6: a sweep at a time not strictly after
`claimsOpenAt[E] + CLAIM_WINDOW` fails and changes nothing; after the
window, an admin sweep with zero remainder succeeds as a strict no-op
(identical state, so no transfer and no event emitted), and one with a
positive remainder (covered by the contract balance) transfers exactly
`funded[E] - totalClaimed[E]` to the treasury, touching only the two
token balances and the event log — `funded`, `totalClaimed` and every
claimed flag are left unchanged. -/
theorem C6_sweep_semantics (env : Env) (s : State) (E sender t : Nat) :
    (t ≤ (s.epochs E).claimsOpenAt + CLAIM_WINDOW →
      (applyOp env s (.sweepUnclaimed sender t E)).isOk = false ∧
      execOp env s (.sweepUnclaimed sender t E) = s) ∧
    (sender = s.admin → (s.epochs E).claimsOpenAt + CLAIM_WINDOW < WORD →
      (s.epochs E).claimsOpenAt + CLAIM_WINDOW < t →
      ((s.epochs E).funded = s.totalClaimed E →
        applyOp env s (.sweepUnclaimed sender t E) = .ok s) ∧
      (s.totalClaimed E < (s.epochs E).funded →
        (s.epochs E).funded - s.totalClaimed E ≤ s.balance →
        applyOp env s (.sweepUnclaimed sender t E) = .ok { s with
          balance := s.balance - ((s.epochs E).funded - s.totalClaimed E),
          treasuryBal := s.treasuryBal + ((s.epochs E).funded - s.totalClaimed E),
          events := s.events ++
            [.UnclaimedSwept E ((s.epochs E).funded - s.totalClaimed E)] })) :=
  ⟨fun ht => ⟨sweep_reverts_window ht, execOp_of_not_ok (sweep_reverts_window ht)⟩,
   fun hs hov ht =>
     ⟨fun hz => sweep_ok_zero hs hov ht hz,
      fun hpos hbal => sweep_ok_transfer hs hov ht hpos hbal⟩⟩

theorem C6_sweep_semantics_witness :
    ((applyOp env0 s3 (.sweepUnclaimed 1 100 0)).isOk = false ∧
     execOp env0 s3 (.sweepUnclaimed 1 100 0) = s3) ∧
    applyOp env0 s3 (.sweepUnclaimed 1 272901 0) = .ok { s3 with
      balance := s3.balance - ((s3.epochs 0).funded - s3.totalClaimed 0),
      treasuryBal := s3.treasuryBal + ((s3.epochs 0).funded - s3.totalClaimed 0),
      events := s3.events ++
        [.UnclaimedSwept 0 ((s3.epochs 0).funded - s3.totalClaimed 0)] } :=
  ⟨(C6_sweep_semantics env0 s3 0 1 100).1 (by decide),
   ((C6_sweep_semantics env0 s3 0 1 272901).2 (by decide) (by decide) (by decide)).2
     (by decide) (by decide)⟩

/-- Claim C7: a successful setMerkleRoot call with a non-zero root sets
`root[E]` to the given value, re-arms the window by setting
`claimsOpenAt[E]` to the call's timestamp, sets `start[E]` to that
timestamp only when it was unset, leaves every other epoch record
untouched, and changes no claimed flag, no `totalClaimed` entry and no
token balance. -/
theorem C7_setMerkleRoot_effects (env : Env) (s : State) (sender t E r : Nat)
    (hs : sender = s.admin) (hr : r ≠ 0) :
    (applyOp env s (.setMerkleRoot sender t E r)).isOk = true ∧
    (execOp env s (.setMerkleRoot sender t E r)).epochs E =
      { root := r, funded := (s.epochs E).funded,
        start := if (s.epochs E).start = 0 then t else (s.epochs E).start,
        claimsOpenAt := t } ∧
    (∀ E', E' ≠ E → (execOp env s (.setMerkleRoot sender t E r)).epochs E' = s.epochs E') ∧
    (execOp env s (.setMerkleRoot sender t E r)).claimed = s.claimed ∧
    (execOp env s (.setMerkleRoot sender t E r)).totalClaimed = s.totalClaimed ∧
    (execOp env s (.setMerkleRoot sender t E r)).balance = s.balance := by
  have h := @setMerkleRoot_ok env s sender t E r hs hr
  refine ⟨by rw [h]; rfl, ?_, ?_, ?_, ?_, ?_⟩
  · simp [execOp, h, upd]
  · intro E' hne
    simp [execOp, h, upd, hne]
  · simp [execOp, h]
  · simp [execOp, h]
  · simp [execOp, h]

theorem C7_setMerkleRoot_effects_witness :
    (1 = s3.admin ∧ (9 : Nat) ≠ 0) ∧
    ((applyOp env0 s3 (.setMerkleRoot 1 500 0 9)).isOk = true ∧
     (execOp env0 s3 (.setMerkleRoot 1 500 0 9)).epochs 0 =
       { root := 9, funded := (s3.epochs 0).funded,
         start := if (s3.epochs 0).start = 0 then 500 else (s3.epochs 0).start,
         claimsOpenAt := 500 } ∧
     (∀ E', E' ≠ 0 → (execOp env0 s3 (.setMerkleRoot 1 500 0 9)).epochs E' = s3.epochs E') ∧
     (execOp env0 s3 (.setMerkleRoot 1 500 0 9)).claimed = s3.claimed ∧
     (execOp env0 s3 (.setMerkleRoot 1 500 0 9)).totalClaimed = s3.totalClaimed ∧
     (execOp env0 s3 (.setMerkleRoot 1 500 0 9)).balance = s3.balance) :=
  ⟨⟨by decide, by decide⟩,
   C7_setMerkleRoot_effects env0 s3 1 500 0 9 (by decide) (by decide)⟩

/-- Claim C8: the sweep script's catch handler answers a mid-run error
with break, after which control falls through to the summary and
`process.exit(0)` — so a run that hits an unrecoverable error on its
first epoch still reports exit status 0, and indeed every run (with the
required environment variables set) exits 0.  This contradicts the
stated non-zero-on-error contract; the abort-instead-of-continue half of
the claim does hold (the catch breaks out of the loop). -/
theorem C8_error_run_exits_zero :
    (sweepLoop 200000 [Fetch.err]).errored = true ∧
    (sweepLoop 200000 [Fetch.err]).exitCode = 0 ∧
    (∀ (now : Nat) (fetches : List Fetch), (sweepLoop now fetches).exitCode = 0) := by
  refine ⟨rfl, rfl, fun now fetches => ?_⟩
  induction fetches with
  | nil => rfl
  | cons f rest ih =>
    cases f with
    | err => rfl
    | got r =>
      simp only [sweepLoop]
      split
      · rfl
      split
      · exact ih
      split
      · exact ih
      split
      · exact ih
      · rfl

/-- Claim C9: on a fetch sequence whose records are all published
(non-zero claimsOpenAt, sweeps succeeding) up to the first unpublished
epoch, the script's loop stops exactly at that epoch — the result is
independent of everything after it — having processed exactly the prefix,
and the final summary reports as swept the prefix epochs whose window
(48h plus the one-hour margin) had expired with a positive `unclaimed`
value as the script computes it — on binary64 doubles, so dust
remainders below double precision count as nothing to sweep — and as
skipped those whose window was still open. -/
theorem C9_stops_at_first_unpublished (now : Nat) (pre : List EpochRec)
    (z : EpochRec) (post : List Fetch)
    (h1 : ∀ r ∈ pre, r.claimsOpenAt ≠ 0)
    (h2 : ∀ r ∈ pre, r.sweepOk = true)
    (hz : z.claimsOpenAt = 0) :
    sweepLoop now (pre.map Fetch.got ++ Fetch.got z :: post)
      = ⟨countSwept now pre, countSkipped now pre, pre.length, false, 0⟩ :=
  sweepLoop_stops now pre z post h1 h2 hz

theorem C9_stops_at_first_unpublished_witness :
    ((∀ r ∈ [EpochRec.mk 1 10 3 true, EpochRec.mk 499000 5 0 true], r.claimsOpenAt ≠ 0) ∧
     (∀ r ∈ [EpochRec.mk 1 10 3 true, EpochRec.mk 499000 5 0 true], r.sweepOk = true) ∧
     (EpochRec.mk 0 0 0 true).claimsOpenAt = 0) ∧
    sweepLoop 500000
        ([EpochRec.mk 1 10 3 true, EpochRec.mk 499000 5 0 true].map Fetch.got
          ++ Fetch.got (EpochRec.mk 0 0 0 true) :: [Fetch.err])
      = ⟨countSwept 500000 [EpochRec.mk 1 10 3 true, EpochRec.mk 499000 5 0 true],
         countSkipped 500000 [EpochRec.mk 1 10 3 true, EpochRec.mk 499000 5 0 true],
         ([EpochRec.mk 1 10 3 true, EpochRec.mk 499000 5 0 true] : List EpochRec).length,
         false, 0⟩ :=
  ⟨⟨by decide, by decide, by decide⟩,
   C9_stops_at_first_unpublished 500000
     [EpochRec.mk 1 10 3 true, EpochRec.mk 499000 5 0 true]
     (EpochRec.mk 0 0 0 true) [Fetch.err] (by decide) (by decide) (by decide)⟩

/-- Claim C10: the UI's local checker diverges from the on-chain
verifier.  For any non-empty proof it returns false (the unbound
`keccak256` identifier throws on the first loop iteration and the catch
returns false); for the empty proof, on digest strings (which are never
empty), it returns the case-insensitive string comparison of leaf and
root; and there are corresponding inputs — rendered for the UI as
0x-prefixed 64-digit hex — on which the on-chain verifier accepts and
the local checker rejects. -/
theorem C10_local_checker_divergence (leaf root p : String) (ps : List String)
    (hleaf : leaf ≠ "") (hroot : root ≠ "") :
    verifyProofLocally leaf (p :: ps) root = false ∧
    verifyProofLocally leaf [] root = (leaf.toLower == root.toLower) ∧
    ∃ (hash : Nat → Nat → Nat) (lf rt : Nat) (proof : List Nat),
      proof ≠ [] ∧
      Merkle.verify hash proof rt lf = true ∧
      verifyProofLocally (hex32 lf) (proof.map hex32) (hex32 rt) = false := by
  refine ⟨?_, ?_, fun _ _ => 5, 0, 5, [0], by decide, by decide, by decide⟩
  · unfold verifyProofLocally
    split
    · rfl
    · rfl
  · unfold verifyProofLocally
    rw [if_neg (by simp [hleaf, hroot])]

theorem C10_local_checker_divergence_witness :
    (("0xAB" : String) ≠ "" ∧ ("0xab" : String) ≠ "") ∧
    (verifyProofLocally ("0xAB") (["0xcd"]) ("0xab") = false ∧
     verifyProofLocally ("0xAB") [] ("0xab")
        = (String.toLower ("0xAB") == String.toLower ("0xab")) ∧
     ∃ (hash : Nat → Nat → Nat) (lf rt : Nat) (proof : List Nat),
       proof ≠ [] ∧
       Merkle.verify hash proof rt lf = true ∧
       verifyProofLocally (hex32 lf) (proof.map hex32) (hex32 rt) = false) :=
  ⟨⟨by decide, by decide⟩,
   C10_local_checker_divergence ("0xAB") ("0xab") ("0xcd") [] (by decide) (by decide)⟩

end Athena
